/-
Verification of the ACS_2021 flight-computer repository against its
natural-language specification.

Shallow embedding: `sensors.py`, `utils.py` and the control loop of `acs.py`
are translated into executable Lean definitions.  Python floats are embedded
as exact rationals (ℚ); a hardware read that may raise is embedded as an
`Option` input (`none` = the read raised); Python exceptions escaping a
function are embedded as `Except`.
-/
import Mathlib

namespace ACS

/-! ## Data model

`data_manager.py` is not part of the given sources; only its callers in
`sensors.py` are.  The store is therefore modelled from the specification
(§3 Data Model, §4.1 Telemetry Store). -/

/-- A channel value: scalar channels hold one numeric value, vector (tuple)
channels hold a fixed-arity ordered triple.  The fixed arity 3 of vector
channels is enforced by the type, matching the spec's fixed-arity invariant. -/
inductive PVal where
  | num (q : ℚ)
  | vec (v : ℚ × ℚ × ℚ)
  deriving DecidableEq, Repr

/-- The two channel variants of the spec: scalar and vector (tuple). -/
inductive ChanKind where
  | scalar
  | tuple
  deriving DecidableEq, Repr

/-- A registered channel: a name, its variant, and its current value. -/
structure Chan where
  name : String
  kind : ChanKind
  val : PVal
  deriving DecidableEq, Repr

/-- Modelled from the spec: store-level error taxonomy of §4.1/§7
(`DuplicateChannel`, `UnknownChannel`, `ArityMismatch`, `UnknownSubfield`).
`ArityMismatch` cannot arise in this embedding because vector arity is
type-enforced. -/
inductive DMError where
  | DuplicateChannel
  | UnknownChannel
  | ArityMismatch
  | UnknownSubfield
  deriving DecidableEq, Repr

/-- Modelled from the spec: the Telemetry Store (`Data_Manager` of the missing
`data_manager.py`): the list of active sensor names it was constructed with,
and the registered channels in registration order. -/
structure Data_Manager where
  active_sensors : List String
  channels : List Chan
  deriving DecidableEq, Repr

namespace Data_Manager

/-- Names of the registered channels. -/
def channelNames (m : Data_Manager) : List String :=
  m.channels.map (fun c => c.name)

/-- Current value of a channel, by name. -/
def lookupVal (m : Data_Manager) (nm : String) : Option PVal :=
  (m.channels.find? (fun c => c.name = nm)).map (fun c => c.val)

/-- Modelled from the spec: `register(name, arity)` adds a channel; fails with
`DuplicateChannel` if the name already exists (§4.1). -/
def add_data (c : Chan) (m : Data_Manager) : Except DMError Data_Manager :=
  if m.channels.any (fun c0 => c0.name = c.name) then
    .error .DuplicateChannel
  else
    .ok { m with channels := m.channels ++ [c] }

/-- Modelled from the spec: a value write overwrites the channel's current
value in place and fails with `UnknownChannel` if the name is not
registered (§4.1). -/
def update_field (nm : String) (v : PVal) (m : Data_Manager) :
    Except DMError Data_Manager :=
  if m.channels.any (fun c0 => c0.name = nm) then
    .ok { m with
          channels := m.channels.map
            (fun c0 => if c0.name = nm then { c0 with val := v } else c0) }
  else
    .error .UnknownChannel

/-- Modelled from the spec: the structured sub-write used by `read_imu`
(`update_dict_field`); for this embedding the sub-components of one read are
a whole triple, so it overwrites the named channel's value like
`update_field` and fails with `UnknownChannel` on an unregistered name. -/
def update_dict_field (nm : String) (v : ℚ × ℚ × ℚ) (m : Data_Manager) :
    Except DMError Data_Manager :=
  update_field nm (.vec v) m

end Data_Manager

/-- `data_manager.Scalar_Data(name)`: a scalar channel, initial value the
defined zero of matching arity (spec §4.1). -/
def Scalar_Data (nm : String) : Chan :=
  { name := nm, kind := .scalar, val := .num 0 }

/-- `data_manager.Tuple_Data(name)`: a vector (tuple) channel, initial value
the defined zero of matching arity (spec §4.1). -/
def Tuple_Data (nm : String) : Chan :=
  { name := nm, kind := .tuple, val := .vec (0, 0, 0) }

/-! ## sensors.py

Hardware reads are inputs of each cycle: `none` models the read raising an
exception, `some v` a successful read of value `v`. -/

/-- One cycle's hardware-read outcomes: the ADXL345 accelerometer triple, the
MPL3115A2 altitude scalar, the MPU9250 accelerometer / gyroscope /
magnetometer triples, and the timestamp `time.time()`. -/
structure SensorEnv where
  accelRead : Option (ℚ × ℚ × ℚ)
  altRead : Option ℚ
  imuAccelRead : Option (ℚ × ℚ × ℚ)
  imuGyroRead : Option (ℚ × ℚ × ℚ)
  imuMagnetRead : Option (ℚ × ℚ × ℚ)
  timeVal : ℚ

/-- `initialize_accelerometer`: registers the `adxl_acceleration` tuple
channel (hardware setup has no effect on the store) and returns `True`. -/
def initialize_accelerometer (m : Data_Manager) :
    Except DMError (Data_Manager × Bool) := do
  let m1 ← m.add_data (Tuple_Data "adxl_acceleration")
  return (m1, true)

/-- `initialize_altimeter`: registers the `mpl_altitude` scalar channel and
returns `True`. -/
def initialize_altimeter (m : Data_Manager) :
    Except DMError (Data_Manager × Bool) := do
  let m1 ← m.add_data (Scalar_Data "mpl_altitude")
  return (m1, true)

/-- `initialize_imu`: registers the `mpu_acceleration`, `mpu_gyroscope` and
`mpu_magnetometer` tuple channels, in that source order, and returns
`True`. -/
def initialize_imu (m : Data_Manager) :
    Except DMError (Data_Manager × Bool) := do
  let m1 ← m.add_data (Tuple_Data "mpu_acceleration")
  let m2 ← m1.add_data (Tuple_Data "mpu_gyroscope")
  let m3 ← m2.add_data (Tuple_Data "mpu_magnetometer")
  return (m3, true)

/-- `initialize_timer`: registers the mandatory `time` scalar channel and
returns `True`. -/
def initialize_timer (m : Data_Manager) :
    Except DMError (Data_Manager × Bool) := do
  let m1 ← m.add_data (Scalar_Data "time")
  return (m1, true)

/-- Python's short-circuit `result and f(manager)`: when `result` is falsy the
call is skipped and the result stays `False`. -/
def pyAndInit (r : Bool) (f : Data_Manager → Except DMError (Data_Manager × Bool))
    (m : Data_Manager) : Except DMError (Data_Manager × Bool) :=
  if r then do
    let (m1, r1) ← f m
    return (m1, r && r1)
  else
    return (m, false)

/-- One iteration of the dispatch loop in `initialize_sensors`: the string
comparison chain `'IMU'` / `'Accelerometer'` / `'Altimeter'`; any other
sensor name matches no branch and leaves the accumulator unchanged. -/
def init_step (s : String) (acc : Data_Manager × Bool) :
    Except DMError (Data_Manager × Bool) :=
  if s = "IMU" then pyAndInit acc.2 initialize_imu acc.1
  else if s = "Accelerometer" then pyAndInit acc.2 initialize_accelerometer acc.1
  else if s = "Altimeter" then pyAndInit acc.2 initialize_altimeter acc.1
  else .ok acc

/-- The `for sensor in manager.active_sensors` loop of `initialize_sensors`. -/
def init_go (sensors : List String) (acc : Data_Manager × Bool) :
    Except DMError (Data_Manager × Bool) :=
  match sensors with
  | [] => .ok acc
  | s :: rest => do
      let acc1 ← init_step s acc
      init_go rest acc1

/-- `initialize_sensors`: registers the timer channel, then dispatches over
the manager's active-sensor list. -/
def initialize_sensors (m : Data_Manager) :
    Except DMError (Data_Manager × Bool) := do
  let (m1, result) ← initialize_timer m
  init_go m1.active_sensors (m1, result)

/-- The `try/except` pattern around a hardware triple read: the value on
success, the zero triple when the read raises. -/
def orZero3 (o : Option (ℚ × ℚ × ℚ)) : ℚ × ℚ × ℚ :=
  match o with
  | some a => a
  | none => (0, 0, 0)

/-- The `try/except` pattern around a hardware scalar read: the value on
success, `0` when the read raises. -/
def orZeroQ (o : Option ℚ) : ℚ :=
  match o with
  | some a => a
  | none => 0

/-- `read_accelerometer`: the `try/except` substitutes the zero triple
`[0,0,0]` when the hardware read raises, then writes the
`adxl_acceleration` channel. -/
def read_accelerometer (env : SensorEnv) (m : Data_Manager) :
    Except DMError Data_Manager :=
  let acceleration := orZero3 env.accelRead
  m.update_field "adxl_acceleration" (.vec acceleration)

/-- `read_altimeter`: the `try/except` substitutes the scalar `0` when the
hardware read raises, then writes the `mpl_altitude` channel. -/
def read_altimeter (env : SensorEnv) (m : Data_Manager) :
    Except DMError Data_Manager :=
  let altitude := orZeroQ env.altRead
  m.update_field "mpl_altitude" (.num altitude)

/-- `read_imu`, faithful to the source: the local variable `magnet_val` is
assigned from `imu.readGyro()` and `gyro_val` from `imu.readMagnet()`
(each defaulting to `(0,0,0)` when the read raises), and then
`mpu_magnetometer` is written from `magnet_val` and `mpu_gyroscope` from
`gyro_val`. -/
def read_imu (env : SensorEnv) (m : Data_Manager) :
    Except DMError Data_Manager := do
  let accel := orZero3 env.imuAccelRead
  let magnet_val := orZero3 env.imuGyroRead
  let gyro_val := orZero3 env.imuMagnetRead
  let m1 ← m.update_dict_field "mpu_acceleration" accel
  let m2 ← m1.update_dict_field "mpu_magnetometer" magnet_val
  m2.update_dict_field "mpu_gyroscope" gyro_val

/-- `read_time`: writes `time.time()` into the `time` channel. -/
def read_time (env : SensorEnv) (m : Data_Manager) :
    Except DMError Data_Manager :=
  m.update_field "time" (.num env.timeVal)

/-- One iteration of the dispatch loop in `read_sensors`: the string
comparison chain; any other sensor name matches no branch. -/
def read_step (env : SensorEnv) (s : String) (m : Data_Manager) :
    Except DMError Data_Manager :=
  if s = "IMU" then read_imu env m
  else if s = "Accelerometer" then read_accelerometer env m
  else if s = "Altimeter" then read_altimeter env m
  else .ok m

/-- The `for sensor in manager.active_sensors` loop of `read_sensors`. -/
def read_go (env : SensorEnv) (sensors : List String) (m : Data_Manager) :
    Except DMError Data_Manager :=
  match sensors with
  | [] => .ok m
  | s :: rest => do
      let m1 ← read_step env s m
      read_go env rest m1

/-- `read_sensors`: reads the time, then dispatches over the manager's
active-sensor list. -/
def read_sensors (env : SensorEnv) (m : Data_Manager) :
    Except DMError Data_Manager := do
  let m1 ← read_time env m
  read_go env m1.active_sensors m1

/-- The channels each known sensor name registers, in registration order;
any name outside the dispatch chain registers nothing. -/
def sensorChans (s : String) : List Chan :=
  if s = "IMU" then
    [Tuple_Data "mpu_acceleration", Tuple_Data "mpu_gyroscope",
     Tuple_Data "mpu_magnetometer"]
  else if s = "Accelerometer" then [Tuple_Data "adxl_acceleration"]
  else if s = "Altimeter" then [Scalar_Data "mpl_altitude"]
  else []

/-- Just the channel names a sensor name owns. -/
def sensorChannelNames (s : String) : List String :=
  (sensorChans s).map (fun c => c.name)

/-- The sensor names the dispatch chains recognise. -/
def isKnownSensor (s : String) : Bool :=
  s = "IMU" || s = "Accelerometer" || s = "Altimeter"

/-! ## acs.py: the control loop

The modules `main` calls each cycle (`sensors`/`sensors_spoof`, `data_filter`,
`state`, `controller`, `servo`, `scribe`) are external to the given sources
apart from `sensors.py`; only their call order and data flow in `acs.main`
are embedded, so the per-cycle operations are opaque parameters.  Each mutates
the shared manager and possibly returns a value, exactly as its call site in
`main` uses it. -/

/-- The per-cycle operations `main` invokes, with `σ` the (opaque) type of
the flight state returned by `state.state_transition`. -/
structure Modules (σ : Type) where
  read_sensors_op : Data_Manager → Data_Manager
  filter_data_op : Data_Manager → Data_Manager
  state_transition_op : Data_Manager → Data_Manager × σ
  controller_step_op : Data_Manager → Data_Manager × ℚ
  get_angle_op : Data_Manager → Data_Manager × ℚ
  write_row_op : Data_Manager → Data_Manager

/-- Observable events of one loop cycle, in the order `main` performs them;
the servo event carries the angle passed to `servo.rotate`. -/
inductive Ev where
  | readSensors
  | filterData
  | stateTransition
  | controllerStep
  | controllerGetAngle
  | servoRotate (angle : ℚ)
  | scribeWriteRow
  deriving DecidableEq, Repr

/-- One iteration of the `while True` body of `main`, in source order:
read, filter, state transition, controller step, controller angle,
servo rotate, log row.  Returns the manager after the cycle and the cycle's
event trace. -/
def main_cycle {σ : Type} (M : Modules σ) (m : Data_Manager) :
    Data_Manager × List Ev :=
  let m1 := M.read_sensors_op m
  let m2 := M.filter_data_op m1
  let m3 := (M.state_transition_op m2).1
  let m4 := (M.controller_step_op m3).1
  let m5 := (M.get_angle_op m4).1
  let servo_angle := (M.get_angle_op m4).2
  let m6 := M.write_row_op m5
  (m6, [.readSensors, .filterData, .stateTransition, .controllerStep,
        .controllerGetAngle, .servoRotate servo_angle, .scribeWriteRow])

/-- Running `main` for `n` cycles: the final manager and the whole trace. -/
def main_run {σ : Type} (M : Modules σ) (m : Data_Manager) :
    Nat → Data_Manager × List Ev
  | 0 => (m, [])
  | n + 1 =>
      let c := main_cycle M m
      let r := main_run M c.1 n
      (r.1, c.2 ++ r.2)

/-- The manager transformation the spec's pipeline describes: acquisition,
then filtering, then state update, then the controller pair, then the log
row, each consuming the previous stage's output. -/
def pipeline_state {σ : Type} (M : Modules σ) (m : Data_Manager) :
    Data_Manager :=
  M.write_row_op
    (M.get_angle_op
      (M.controller_step_op
        (M.state_transition_op (M.filter_data_op (M.read_sensors_op m))).1).1).1

/-- The servo angle a cycle starting at manager `m` commands: the result of
`controller.get_angle` on the manager produced by the acquisition, filter,
state and controller-step stages. -/
def pipeline_angle {σ : Type} (M : Modules σ) (m : Data_Manager) : ℚ :=
  (M.get_angle_op
    (M.controller_step_op
      (M.state_transition_op (M.filter_data_op (M.read_sensors_op m))).1).1).2

/-! ### Termination behaviour of main

The loop body is `while True:` with no `break` and no `return`; the only way
`main` ends is an exception escaping a cycle (an external stop signal such as
`KeyboardInterrupt`, or an unrecoverable failure in a module call).
`raises i = true` models an exception being raised during cycle `i`. -/

/-- Outcome of running `main` with a given amount of fuel. -/
inductive MainOutcome where
  | stillRunning
  | returned
  | raised
  deriving DecidableEq, Repr

/-- The `while True` loop of `main`, from cycle index `i`: a cycle either
raises (terminating `main` exceptionally) or continues; no branch produces a
normal return. -/
def main_loop (raises : Nat → Bool) (i : Nat) : Nat → MainOutcome
  | 0 => .stillRunning
  | fuel + 1 => if raises i then .raised else main_loop raises (i + 1) fuel

/-- Outcome of the whole process: still running, or exited with a record of
whether `servo.clean_servo()` was executed before exit. -/
inductive ScriptOutcome where
  | stillRunning
  | exited (cleanServoRan : Bool)
  deriving DecidableEq, Repr

/-- The module-level tail of acs.py, `main()` followed by
`servo.clean_servo()`, under Python exception semantics: `clean_servo` runs
only when `main` returns normally; an exception escaping `main` propagates
past the uncaught top level and the process exits without reaching the
`clean_servo` line. -/
def script_run (raises : Nat → Bool) (fuel : Nat) : ScriptOutcome :=
  match main_loop raises 0 fuel with
  | .stillRunning => .stillRunning
  | .returned => .exited true
  | .raised => .exited false

/-! ## utils.py -/

/-- Python int() applied to a string (here always a string of digit
characters): raises ValueError on the empty string, otherwise returns the
decimal value.  Strings are modelled as their character lists. -/
def pyIntOfString (s : List Char) : Except Unit Nat :=
  if !s.isEmpty && s.all (fun c => c.isDigit) then
    .ok (s.foldl (fun n c => n * 10 + (c.toNat - Char.toNat '0')) 0)
  else
    .error ()

/-- Python string_to_int from utils.py: keeps the digit characters of the
input in order and applies int() to the resulting string. -/
def string_to_int (in_str : List Char) : Except Unit Nat :=
  let int_vals := in_str.filter (fun c => c.isDigit)
  pyIntOfString int_vals

/-- A Python value as it can occur in the lists given to
format_float_list; floats are embedded as exact rationals. -/
inductive PyElem where
  | float (q : ℚ)
  | intE (n : ℤ)
  | str (s : String)
  | boolE (b : Bool)
  deriving DecidableEq, Repr

/-- Rounding half-to-even (the rounding CPython's fixed-point float
formatting applies). -/
def roundHalfEven (q : ℚ) : ℤ :=
  if q - ⌊q⌋ < 1 / 2 then ⌊q⌋
  else if q - ⌊q⌋ > 1 / 2 then ⌊q⌋ + 1
  else if Even ⌊q⌋ then ⌊q⌋ else ⌊q⌋ + 1

/-- The four fraction digits of a fixed-point rendering with precision 4:
the decimal digits of `n` (which is below 10000), zero-padded to width 4. -/
def fracDigits4 (n : Nat) : String :=
  String.mk [Nat.digitChar (n / 1000 % 10), Nat.digitChar (n / 100 % 10),
             Nat.digitChar (n / 10 % 10), Nat.digitChar (n % 10)]

/-- Model of CPython fixed-point float formatting with precision 4
(the format specification .4f): round the magnitude to 4 decimal places
half-to-even, then render sign, integer part, a point, and exactly four
fraction digits. -/
def pyFormatFix4 (q : ℚ) : String :=
  let n : Nat := (roundHalfEven (|q| * 10000)).toNat
  let sign : String := if q < 0 then "-" else ""
  sign ++ Nat.repr (n / 10000) ++ "." ++ fracDigits4 (n % 10000)

/-- Python format_float_list from utils.py: the list comprehension maps a
value of exact type float to its .4f rendering and keeps every other
element unchanged. -/
def format_float_list (in_list : List PyElem) : List PyElem :=
  in_list.map (fun i => match i with
    | .float q => .str (pyFormatFix4 q)
    | e => e)

/-! ## Proof-support definitions -/

/-- The registration-time identity of a channel: its name and variant. -/
def nameKind (c : Chan) : String × ChanKind :=
  (c.name, c.kind)

/-- The per-channel effect of a write: replace the value of the channel
named `nm`, leave every other channel unchanged. -/
def replChan (nm : String) (v : PVal) (c0 : Chan) : Chan :=
  if c0.name = nm then { c0 with val := v } else c0

/-- Replace the active-sensor list of a manager, keeping its channels. -/
def setActive (a : List String) (m : Data_Manager) : Data_Manager :=
  { m with active_sensors := a }

/-- A write step from `m` to `m'` that touches at most the channels named in
`S`: the active-sensor list, the number of channels and every channel's name
and kind are preserved, and any channel position whose name is outside `S`
is entirely unchanged. -/
def Touches (m m' : Data_Manager) (S : List String) : Prop :=
  m'.active_sensors = m.active_sensors ∧
  m'.channels.map nameKind = m.channels.map nameKind ∧
  ∀ i : Nat, ∀ c : Chan, m.channels[i]? = some c → c.name ∉ S →
    m'.channels[i]? = some c

/-- Forget everything about an initialization result except the channel list
and the returned boolean (used to compare runs whose managers differ only in
their active-sensor list). -/
def stripInit (r : Except DMError (Data_Manager × Bool)) :
    Except DMError (List Chan × Bool) :=
  r.map (fun p => (p.1.channels, p.2))

/-- Forget everything about a read result except the channel list. -/
def stripRead (r : Except DMError Data_Manager) :
    Except DMError (List Chan) :=
  r.map (fun m => m.channels)

/-- A cycle in which every hardware read raises. -/
def envNone : SensorEnv :=
  { accelRead := none, altRead := none, imuAccelRead := none,
    imuGyroRead := none, imuMagnetRead := none, timeVal := 0 }

/-- A cycle with distinct successful IMU readings, to observe which channel
each reading lands in. -/
def envIMUVals : SensorEnv :=
  { accelRead := none, altRead := none, imuAccelRead := some (7, 8, 9),
    imuGyroRead := some (1, 2, 3), imuMagnetRead := some (4, 5, 6),
    timeVal := 0 }

/-- The manager of acs.py after initialization with the repository's
configured active-sensor list. -/
def mgrAA : Data_Manager :=
  { active_sensors := ["Accelerometer", "Altimeter"],
    channels := [Scalar_Data "time", Tuple_Data "adxl_acceleration",
                 Scalar_Data "mpl_altitude"] }

/-- A manager initialized with the IMU active. -/
def mgrIMU : Data_Manager :=
  { active_sensors := ["IMU"],
    channels := [Scalar_Data "time", Tuple_Data "mpu_acceleration",
                 Tuple_Data "mpu_gyroscope", Tuple_Data "mpu_magnetometer"] }

end ACS

namespace ACS

/-! # Lemmas about the Telemetry Store operations -/

lemma any_name_eq_true {m : Data_Manager} {nm : String} (h : nm ∈ m.channelNames) :
    (m.channels.any (fun c0 => c0.name = nm)) = true := by
  simp only [Data_Manager.channelNames, List.mem_map] at h
  obtain ⟨c, hc, hn⟩ := h
  simp only [List.any_eq_true]
  exact ⟨c, hc, by simp [hn]⟩

lemma update_field_ok {m : Data_Manager} {nm : String} {v : PVal}
    (h : nm ∈ m.channelNames) :
    m.update_field nm v =
      .ok { m with channels := m.channels.map (replChan nm v) } := by
  simp [Data_Manager.update_field, any_name_eq_true h, replChan]

lemma update_field_ok_elim {m m' : Data_Manager} {nm : String} {v : PVal}
    (h : m.update_field nm v = .ok m') :
    m'.active_sensors = m.active_sensors ∧
    m'.channels = m.channels.map (replChan nm v) := by
  by_cases ha : (m.channels.any (fun c0 => c0.name = nm)) = true
  · simp only [Data_Manager.update_field, ha, if_true] at h
    cases h
    exact ⟨rfl, by simp [replChan]⟩
  · simp [Data_Manager.update_field, ha] at h

lemma lookupVal_update_self {m m' : Data_Manager} {nm : String} {v : PVal}
    (h : m.update_field nm v = .ok m') :
    m'.lookupVal nm = some v := by
  have hch := (update_field_ok_elim h).2
  have ha : (m.channels.any (fun c0 => c0.name = nm)) = true := by
    by_contra hc
    simp [Data_Manager.update_field, hc] at h
  rw [List.any_eq_true] at ha
  obtain ⟨c₀, hc₀m, hc₀⟩ := ha
  have hsome : (m.channels.find? (fun c => c.name = nm)).isSome := by
    rw [List.find?_isSome]
    exact ⟨c₀, hc₀m, hc₀⟩
  obtain ⟨cf, hcf⟩ := Option.isSome_iff_exists.mp hsome
  have hcfname : cf.name = nm := by
    have := List.find?_some hcf
    simpa using this
  unfold Data_Manager.lookupVal
  rw [hch, List.find?_map]
  have hpf : ((fun c : Chan => decide (c.name = nm)) ∘ replChan nm v) =
      (fun c : Chan => decide (c.name = nm)) := by
    funext c0
    by_cases hc : c0.name = nm <;> simp [replChan, hc]
  rw [hpf, hcf]
  simp [replChan, hcfname]

/-! # Lemmas about the Touches frame predicate -/

lemma touches_refl (m : Data_Manager) (S : List String) : Touches m m S :=
  ⟨rfl, rfl, fun _ _ h _ => h⟩

lemma touches_trans {m₁ m₂ m₃ : Data_Manager} {S T : List String}
    (h₁ : Touches m₁ m₂ S) (h₂ : Touches m₂ m₃ T) : Touches m₁ m₃ (S ++ T) := by
  obtain ⟨a1, k1, f1⟩ := h₁
  obtain ⟨a2, k2, f2⟩ := h₂
  refine ⟨a2.trans a1, k2.trans k1, ?_⟩
  intro i c hic hni
  have hS : c.name ∉ S := fun hh => hni (List.mem_append_left _ hh)
  have hT : c.name ∉ T := fun hh => hni (List.mem_append_right _ hh)
  exact f2 i c (f1 i c hic hS) hT

lemma touches_mono {m m' : Data_Manager} {S T : List String}
    (h : Touches m m' S) (hsub : ∀ x ∈ S, x ∈ T) : Touches m m' T :=
  ⟨h.1, h.2.1, fun i c hic hni => h.2.2 i c hic (fun hx => hni (hsub _ hx))⟩

lemma touches_update {m m' : Data_Manager} {nm : String} {v : PVal}
    (h : m.update_field nm v = .ok m') : Touches m m' [nm] := by
  obtain ⟨hact, hch⟩ := update_field_ok_elim h
  refine ⟨hact, ?_, ?_⟩
  · rw [hch, List.map_map]
    apply List.map_congr_left
    intro c _
    by_cases hc : c.name = nm <;> simp [nameKind, replChan, hc]
  · intro i c hic hnotin
    have hne : c.name ≠ nm := by simpa using hnotin
    rw [hch, List.getElem?_map, hic]
    simp [replChan, hne]

lemma touches_channelNames {m m' : Data_Manager} {S : List String}
    (h : Touches m m' S) : m'.channelNames = m.channelNames := by
  have := congrArg (List.map Prod.fst) h.2.1
  simpa [Data_Manager.channelNames, List.map_map, nameKind, Function.comp] using this

end ACS

namespace ACS

/-! # Lemmas about the acquisition step -/

lemma ok_bind {ε α β : Type} (a : α) (f : α → Except ε β) :
    (Except.ok a >>= f) = f a := rfl

lemma error_bind {ε α β : Type} (e : ε) (f : α → Except ε β) :
    ((Except.error e : Except ε α) >>= f) = Except.error e := rfl

lemma except_bind_ok {ε α β : Type} {x : Except ε α} {f : α → Except ε β} {b : β}
    (h : (x >>= f) = .ok b) : ∃ a, x = .ok a ∧ f a = .ok b := by
  cases x with
  | error e => rw [error_bind] at h; exact absurd h (by simp)
  | ok a => exact ⟨a, rfl, by rwa [ok_bind] at h⟩

lemma channelNames_update {m : Data_Manager} {nm : String} {v : PVal} :
    Data_Manager.channelNames
      { m with channels := m.channels.map (replChan nm v) } =
      m.channelNames := by
  unfold Data_Manager.channelNames
  simp only [List.map_map]
  apply List.map_congr_left
  intro c _
  by_cases hc : c.name = nm <;> simp [replChan, hc]

lemma read_accelerometer_touches {env : SensorEnv} {m m' : Data_Manager}
    (h : read_accelerometer env m = .ok m') :
    Touches m m' ["adxl_acceleration"] := by
  unfold read_accelerometer at h
  exact touches_update h

lemma read_altimeter_touches {env : SensorEnv} {m m' : Data_Manager}
    (h : read_altimeter env m = .ok m') :
    Touches m m' ["mpl_altitude"] := by
  unfold read_altimeter at h
  exact touches_update h

lemma read_time_touches {env : SensorEnv} {m m' : Data_Manager}
    (h : read_time env m = .ok m') :
    Touches m m' ["time"] := by
  unfold read_time at h
  exact touches_update h

lemma read_imu_touches {env : SensorEnv} {m m' : Data_Manager}
    (h : read_imu env m = .ok m') :
    Touches m m' ["mpu_acceleration", "mpu_magnetometer", "mpu_gyroscope"] := by
  unfold read_imu at h
  obtain ⟨m1, h1, h⟩ := except_bind_ok h
  obtain ⟨m2, h2, h3⟩ := except_bind_ok h
  unfold Data_Manager.update_dict_field at h1 h2 h3
  have t1 := touches_update h1
  have t2 := touches_update h2
  have t3 := touches_update h3
  exact touches_mono (touches_trans (touches_trans t1 t2) t3) (by decide)

lemma read_step_touches {env : SensorEnv} {s : String} {m m' : Data_Manager}
    (h : read_step env s m = .ok m') :
    Touches m m' (sensorChannelNames s) := by
  unfold read_step at h
  by_cases h1 : s = "IMU"
  · subst h1
    rw [if_pos rfl] at h
    exact touches_mono (read_imu_touches h) (by decide)
  · rw [if_neg h1] at h
    by_cases h2 : s = "Accelerometer"
    · subst h2
      rw [if_pos rfl] at h
      exact touches_mono (read_accelerometer_touches h) (by decide)
    · rw [if_neg h2] at h
      by_cases h3 : s = "Altimeter"
      · subst h3
        rw [if_pos rfl] at h
        exact touches_mono (read_altimeter_touches h) (by decide)
      · rw [if_neg h3] at h
        cases h
        have : sensorChannelNames s = [] := by
          simp [sensorChannelNames, sensorChans, h1, h2, h3]
        exact touches_refl _ _

lemma read_go_touches {env : SensorEnv} {sensors : List String}
    {m m' : Data_Manager} (h : read_go env sensors m = .ok m') :
    Touches m m' (sensors.flatMap sensorChannelNames) := by
  induction sensors generalizing m with
  | nil =>
      unfold read_go at h
      cases h
      exact touches_refl _ _
  | cons s rest ih =>
      unfold read_go at h
      obtain ⟨m1, h1, h2⟩ := except_bind_ok h
      rw [List.flatMap_cons]
      exact touches_trans (read_step_touches h1) (ih h2)

lemma read_sensors_touches {env : SensorEnv} {m m' : Data_Manager}
    (h : read_sensors env m = .ok m') :
    Touches m m' ("time" :: m.active_sensors.flatMap sensorChannelNames) := by
  unfold read_sensors at h
  obtain ⟨m1, h1, h2⟩ := except_bind_ok h
  have t1 := read_time_touches h1
  have t2 := read_go_touches h2
  rw [t1.1] at t2
  have := touches_trans t1 t2
  rwa [List.singleton_append] at this

end ACS

namespace ACS

lemma update_field_isOk {m : Data_Manager} {nm : String} {v : PVal}
    (h : nm ∈ m.channelNames) : ∃ m', m.update_field nm v = .ok m' :=
  ⟨_, update_field_ok h⟩

lemma update_field_isOkE (nm : String) (v : PVal) (m : Data_Manager)
    (h : nm ∈ m.channelNames) : ∃ m', m.update_field nm v = .ok m' :=
  update_field_isOk h

lemma update_field_okE (nm : String) (v : PVal) (m : Data_Manager)
    (h : nm ∈ m.channelNames) :
    m.update_field nm v =
      .ok { m with channels := m.channels.map (replChan nm v) } :=
  update_field_ok h

lemma read_imu_ok (env : SensorEnv) (m : Data_Manager)
    (h1 : "mpu_acceleration" ∈ m.channelNames)
    (h2 : "mpu_magnetometer" ∈ m.channelNames)
    (h3 : "mpu_gyroscope" ∈ m.channelNames) :
    ∃ m', read_imu env m = .ok m' := by
  simp only [read_imu, Data_Manager.update_dict_field]
  obtain ⟨ma, hma⟩ :=
    update_field_isOkE "mpu_acceleration" (.vec (orZero3 env.imuAccelRead)) m h1
  rw [hma, ok_bind]
  have e1 := touches_channelNames (touches_update hma)
  obtain ⟨mb, hmb⟩ :=
    update_field_isOkE "mpu_magnetometer" (.vec (orZero3 env.imuGyroRead)) ma
      (by rw [e1]; exact h2)
  rw [hmb, ok_bind]
  have e2 := touches_channelNames (touches_update hmb)
  exact update_field_isOk (by rw [e2, e1]; exact h3)

lemma read_accelerometer_ok (env : SensorEnv) (m : Data_Manager)
    (h : "adxl_acceleration" ∈ m.channelNames) :
    ∃ m', read_accelerometer env m = .ok m' := by
  unfold read_accelerometer
  exact update_field_isOk h

lemma read_altimeter_ok (env : SensorEnv) (m : Data_Manager)
    (h : "mpl_altitude" ∈ m.channelNames) :
    ∃ m', read_altimeter env m = .ok m' := by
  unfold read_altimeter
  exact update_field_isOk h

lemma read_step_ok (env : SensorEnv) (s : String) (m : Data_Manager)
    (hreg : ∀ n ∈ sensorChannelNames s, n ∈ m.channelNames) :
    ∃ m', read_step env s m = .ok m' := by
  unfold read_step
  by_cases h1 : s = "IMU"
  · subst h1
    rw [if_pos rfl]
    exact read_imu_ok env m (hreg _ (by decide)) (hreg _ (by decide))
      (hreg _ (by decide))
  · rw [if_neg h1]
    by_cases h2 : s = "Accelerometer"
    · subst h2
      rw [if_pos rfl]
      exact read_accelerometer_ok env m (hreg _ (by decide))
    · rw [if_neg h2]
      by_cases h3 : s = "Altimeter"
      · subst h3
        rw [if_pos rfl]
        exact read_altimeter_ok env m (hreg _ (by decide))
      · rw [if_neg h3]
        exact ⟨m, rfl⟩

lemma read_go_ok (env : SensorEnv) (sensors : List String) (m : Data_Manager)
    (hreg : ∀ s ∈ sensors, ∀ n ∈ sensorChannelNames s, n ∈ m.channelNames) :
    ∃ m', read_go env sensors m = .ok m' := by
  induction sensors generalizing m with
  | nil => exact ⟨m, rfl⟩
  | cons s rest ih =>
      obtain ⟨m1, h1⟩ := read_step_ok env s m (hreg s (List.mem_cons_self s rest))
      have e := touches_channelNames (read_step_touches h1)
      obtain ⟨m', h2⟩ := ih m1 (fun s' hs' n hn => by
        rw [e]
        exact hreg s' (List.mem_cons_of_mem s hs') n hn)
      refine ⟨m', ?_⟩
      unfold read_go
      rw [h1, ok_bind]
      exact h2

lemma read_sensors_ok (env : SensorEnv) (m : Data_Manager)
    (ht : "time" ∈ m.channelNames)
    (hreg : ∀ s ∈ m.active_sensors, ∀ n ∈ sensorChannelNames s,
      n ∈ m.channelNames) :
    ∃ m', read_sensors env m = .ok m' := by
  obtain ⟨m1, h1⟩ := update_field_isOkE "time" (.num env.timeVal) m ht
  have t1 : Touches m m1 ["time"] := touches_update h1
  have e := touches_channelNames t1
  obtain ⟨m', h2⟩ := read_go_ok env m1.active_sensors m1 (fun s hs n hn => by
    rw [e]
    refine hreg s ?_ n hn
    rwa [t1.1] at hs)
  refine ⟨m', ?_⟩
  unfold read_sensors read_time
  rw [h1, ok_bind]
  exact h2

end ACS

namespace ACS

/-- C3: in a cycle where the accelerometer hardware read raises, the
adxl_acceleration channel is still written, with the zero triple, and in a
cycle where the altimeter hardware read raises, the mpl_altitude channel is
still written, with the scalar zero; both reads complete without an
exception, so the cycle continues. -/
theorem failed_reads_write_zeros (env : SensorEnv) (m : Data_Manager)
    (ha : env.accelRead = none) (hb : env.altRead = none)
    (hra : "adxl_acceleration" ∈ m.channelNames)
    (hrb : "mpl_altitude" ∈ m.channelNames) :
    (∃ m1, read_accelerometer env m = .ok m1 ∧
      m1.lookupVal "adxl_acceleration" = some (.vec (0, 0, 0))) ∧
    (∃ m2, read_altimeter env m = .ok m2 ∧
      m2.lookupVal "mpl_altitude" = some (.num 0)) := by
  constructor
  · have h1 := update_field_okE "adxl_acceleration"
      (.vec (orZero3 env.accelRead)) m hra
    refine ⟨_, by unfold read_accelerometer; exact h1, ?_⟩
    have h2 := lookupVal_update_self h1
    simpa [ha, orZero3] using h2
  · have h1 := update_field_okE "mpl_altitude"
      (.num (orZeroQ env.altRead)) m hrb
    refine ⟨_, by unfold read_altimeter; exact h1, ?_⟩
    have h2 := lookupVal_update_self h1
    simpa [hb, orZeroQ] using h2

/-- Witness for C3 at a concrete failing cycle and initialized manager. -/
theorem failed_reads_write_zeros_witness :
    envNone.accelRead = none ∧ envNone.altRead = none ∧
    "adxl_acceleration" ∈ mgrAA.channelNames ∧
    "mpl_altitude" ∈ mgrAA.channelNames ∧
    ((∃ m1, read_accelerometer envNone mgrAA = .ok m1 ∧
      m1.lookupVal "adxl_acceleration" = some (.vec (0, 0, 0))) ∧
    (∃ m2, read_altimeter envNone mgrAA = .ok m2 ∧
      m2.lookupVal "mpl_altitude" = some (.num 0))) :=
  ⟨rfl, rfl, by decide, by decide,
    failed_reads_write_zeros envNone mgrAA rfl rfl (by decide) (by decide)⟩

/-- C4 (divergence witness): on an IMU cycle whose gyroscope read returns
(1,2,3) and whose magnetometer read returns (4,5,6), read_imu stores the
gyroscope reading in the mpu_magnetometer channel and the magnetometer
reading in the mpu_gyroscope channel (the accelerometer reading lands in
mpu_acceleration as intended). -/
theorem read_imu_swaps_gyro_and_magnet :
    ∃ m', read_imu envIMUVals mgrIMU = .ok m' ∧
      m'.lookupVal "mpu_acceleration" = some (.vec (7, 8, 9)) ∧
      m'.lookupVal "mpu_gyroscope" = some (.vec (4, 5, 6)) ∧
      m'.lookupVal "mpu_magnetometer" = some (.vec (1, 2, 3)) := by
  refine ⟨_, rfl, ?_, ?_, ?_⟩ <;> decide

/-- C5: the acquisition step never raises: for every hardware-read outcome
of the cycle, including every read failing, read_sensors returns
successfully on any manager holding the time channel and the channels of
its active sensors. -/
theorem read_sensors_never_raises (env : SensorEnv) (m : Data_Manager)
    (ht : "time" ∈ m.channelNames)
    (hreg : ∀ s ∈ m.active_sensors, ∀ n ∈ sensorChannelNames s,
      n ∈ m.channelNames) :
    ∃ m', read_sensors env m = .ok m' :=
  read_sensors_ok env m ht hreg

/-- Witness for C5: the initialized manager of acs.py with every hardware
read failing. -/
theorem read_sensors_never_raises_witness :
    ("time" ∈ mgrAA.channelNames) ∧
    (∀ s ∈ mgrAA.active_sensors, ∀ n ∈ sensorChannelNames s,
      n ∈ mgrAA.channelNames) ∧
    ∃ m', read_sensors envNone mgrAA = .ok m' :=
  ⟨by decide, by decide,
    read_sensors_never_raises envNone mgrAA (by decide) (by decide)⟩

/-- C7: one acquisition step writes only the time channel and the channels
of the sensors in the manager's active-sensor list: every other channel
keeps its position, name, kind and value, and no channel is added, removed
or re-registered. -/
theorem read_sensors_frame (env : SensorEnv) (m m' : Data_Manager)
    (h : read_sensors env m = .ok m') :
    Touches m m' ("time" :: m.active_sensors.flatMap sensorChannelNames) :=
  read_sensors_touches h

/-- Witness for C7 at a concrete cycle on the initialized manager. -/
theorem read_sensors_frame_witness :
    read_sensors envNone mgrAA = .ok mgrAA ∧
    Touches mgrAA mgrAA
      ("time" :: mgrAA.active_sensors.flatMap sensorChannelNames) :=
  ⟨rfl, read_sensors_frame envNone mgrAA mgrAA rfl⟩

end ACS

namespace ACS

/-! # The control loop's exit behaviour and cycle order -/

lemma main_loop_ne_returned (raises : Nat → Bool) (fuel : Nat) :
    ∀ i, main_loop raises i fuel ≠ .returned := by
  induction fuel with
  | zero =>
      intro i h
      simp [main_loop] at h
  | succ n ih =>
      intro i h
      unfold main_loop at h
      by_cases hr : raises i = true
      · rw [if_pos hr] at h
        exact absurd h (by simp)
      · rw [if_neg hr] at h
        exact ih (i + 1) h

/-- C1 (refuted): when the loop in main terminates — it can only terminate
by an exception, for instance a stop signal raised during cycle 0 — the
process exits without ever executing servo.clean_servo(): the call placed
after main() is unreachable because main never returns normally, so no exit
of the process runs clean_servo. -/
theorem clean_servo_never_runs_on_exit :
    script_run (fun _ => true) 1 = .exited false ∧
    ∀ (raises : Nat → Bool) (fuel : Nat),
      script_run raises fuel = .stillRunning ∨
      script_run raises fuel = .exited false := by
  refine ⟨rfl, ?_⟩
  intro raises fuel
  unfold script_run
  cases hm : main_loop raises 0 fuel with
  | stillRunning => exact Or.inl rfl
  | returned => exact absurd hm (main_loop_ne_returned raises fuel 0)
  | raised => exact Or.inr rfl

/-- C2: for every choice of module behaviours, every starting store and
every number of cycles, running main produces, cycle after cycle, exactly
the event sequence read_sensors, filter_data, state_transition,
controller.step, controller.get_angle, servo.rotate, scribe.write_row, the
angle sent to the servo being the one get_angle computes from the preceding
stages' output, and the store evolves by exactly that pipeline composition. -/
theorem main_cycle_order {σ : Type} (M : Modules σ) (m : Data_Manager)
    (n : Nat) :
    (main_run M m n).1 = (pipeline_state M)^[n] m ∧
    (main_run M m n).2 = (List.range n).flatMap (fun i =>
      [Ev.readSensors, Ev.filterData, Ev.stateTransition, Ev.controllerStep,
       Ev.controllerGetAngle,
       Ev.servoRotate (pipeline_angle M ((pipeline_state M)^[i] m)),
       Ev.scribeWriteRow]) := by
  induction n generalizing m with
  | zero => exact ⟨rfl, rfl⟩
  | succ k ih =>
      have hstate : (main_cycle M m).1 = pipeline_state M m := rfl
      constructor
      · show (main_run M (main_cycle M m).1 k).1 = _
        rw [(ih (main_cycle M m).1).1, hstate,
          Function.iterate_succ_apply]
      · show (main_cycle M m).2 ++ (main_run M (main_cycle M m).1 k).2 = _
        rw [(ih (main_cycle M m).1).2, hstate, List.range_succ_eq_map,
          List.flatMap_cons, List.flatMap_map]
        congr 1

end ACS

namespace ACS

/-! # utils.py: string_to_int -/

lemma foldl_digits (l : List Char) (a : ℕ) :
    l.foldl (fun n c => n * 10 + (c.toNat - Char.toNat '0')) a =
      a * 10 ^ l.length +
        Nat.ofDigits 10 ((l.map (fun c => c.toNat - Char.toNat '0')).reverse) := by
  induction l generalizing a with
  | nil => simp
  | cons c l ih =>
      rw [List.foldl_cons, ih, List.map_cons, List.reverse_cons,
        Nat.ofDigits_append]
      simp only [Nat.ofDigits_singleton, List.length_reverse, List.length_map,
        List.length_cons, pow_succ]
      push_cast
      ring

/-- C8: string_to_int raises on an input with no digit character, and on an
input with at least one digit character it returns the number obtained by
reading the digit subsequence, in its original order, as a decimal numeral:
the value agrees with the standard decimal parse of that subsequence and
with its polynomial evaluation as base-10 digits. -/
theorem string_to_int_spec (s : List Char) :
    ((∀ c ∈ s, ¬ (c.isDigit = true)) → string_to_int s = .error ()) ∧
    ((∃ c ∈ s, c.isDigit = true) → ∃ n : ℕ,
      string_to_int s = .ok n ∧
      (String.mk (s.filter (fun c => c.isDigit))).toNat? = some n ∧
      n = Nat.ofDigits 10
        (((s.filter (fun c => c.isDigit)).map
          (fun c => c.toNat - Char.toNat '0')).reverse)) := by
  constructor
  · intro hnone
    have hf : s.filter (fun c => c.isDigit) = [] := by
      rw [List.filter_eq_nil_iff]
      intro a ha
      simpa using hnone a ha
    unfold string_to_int
    rw [hf]
    rfl
  · rintro ⟨c, hc, hdig⟩
    have hmem : c ∈ s.filter (fun c => c.isDigit) :=
      List.mem_filter.mpr ⟨hc, hdig⟩
    have hne : s.filter (fun c => c.isDigit) ≠ [] := List.ne_nil_of_mem hmem
    have hall : (s.filter (fun c => c.isDigit)).all (fun c => c.isDigit) = true := by
      rw [List.all_eq_true]
      intro x hx
      exact (List.mem_filter.mp hx).2
    have hempty : (s.filter (fun c => c.isDigit)).isEmpty = false := by
      cases hfe : s.filter (fun c => c.isDigit) with
      | nil => exact absurd hfe hne
      | cons a l => rfl
    have hok : string_to_int s = .ok ((s.filter (fun c => c.isDigit)).foldl
        (fun n c => n * 10 + (c.toNat - Char.toNat '0')) 0) := by
      simp only [string_to_int, pyIntOfString]
      rw [hempty, hall]
      rfl
    refine ⟨_, hok, ?_, ?_⟩
    · have hie : (String.mk (s.filter (fun c => c.isDigit))).isEmpty = false := by
        rw [Bool.eq_false_iff]
        intro hem
        rw [String.isEmpty_iff] at hem
        exact hne (congrArg String.data hem)
      have hnat : (String.mk (s.filter (fun c => c.isDigit))).isNat = true := by
        unfold String.isNat
        rw [String.all_eq, hie]
        simp [hall]
      unfold String.toNat?
      rw [hnat, String.foldl_eq]
      simp
    · rw [foldl_digits]
      simp

end ACS

namespace ACS

/-! # utils.py: format_float_list -/

lemma digitChar_mod_isDigit (x : ℕ) : (Nat.digitChar (x % 10)).isDigit = true := by
  have h : x % 10 < 10 := Nat.mod_lt _ (by norm_num)
  set m := x % 10 with hm
  interval_cases m <;> decide

lemma fracDigits4_length (n : ℕ) : (fracDigits4 n).length = 4 := rfl

lemma fracDigits4_all_digits (n : ℕ) :
    ∀ ch ∈ (fracDigits4 n).data, ch.isDigit = true := by
  intro ch hch
  have hch' : ch ∈ [Nat.digitChar (n / 1000 % 10), Nat.digitChar (n / 100 % 10),
      Nat.digitChar (n / 10 % 10), Nat.digitChar (n % 10)] := hch
  simp only [List.mem_cons, List.not_mem_nil, or_false] at hch'
  rcases hch' with h | h | h | h <;> (rw [h]; exact digitChar_mod_isDigit _)

/-- C10: format_float_list preserves the length and the position of every
element; an element of exact type float is replaced by its fixed-point
rendering, whose text ends in a decimal point followed by exactly four
digit characters, and every element of any other type (int, str, bool) is
returned unchanged at the same position. -/
theorem format_float_list_spec (l : List PyElem) :
    (format_float_list l).length = l.length ∧
    (∀ i : ℕ, ∀ q : ℚ, l[i]? = some (.float q) →
      (format_float_list l)[i]? = some (.str (pyFormatFix4 q))) ∧
    (∀ i : ℕ, ∀ e : PyElem, l[i]? = some e → (∀ q : ℚ, e ≠ .float q) →
      (format_float_list l)[i]? = some e) ∧
    (∀ q : ℚ, ∃ w f : String, pyFormatFix4 q = w ++ "." ++ f ∧
      f.length = 4 ∧ ∀ ch ∈ f.data, ch.isDigit = true) := by
  refine ⟨by simp [format_float_list], ?_, ?_, ?_⟩
  · intro i q h
    simp [format_float_list, h]
  · intro i e h hne
    have hmap : (format_float_list l)[i]? = Option.map (fun x => match x with
        | PyElem.float q => PyElem.str (pyFormatFix4 q)
        | e => e) l[i]? := by
      simp [format_float_list]
    rw [hmap, h]
    cases e with
    | float q => exact absurd rfl (hne q)
    | intE n => rfl
    | str s => rfl
    | boolE b => rfl
  · intro q
    refine ⟨(if q < 0 then "-" else "") ++
        Nat.repr ((roundHalfEven (|q| * 10000)).toNat / 10000),
      fracDigits4 ((roundHalfEven (|q| * 10000)).toNat % 10000), ?_,
      fracDigits4_length _, fracDigits4_all_digits _⟩
    simp only [pyFormatFix4]

/-- Witness for C10 on a concrete mixed list. -/
theorem format_float_list_spec_witness :
    (format_float_list [PyElem.float (3 / 2), PyElem.intE 5])[0]? =
      some (.str (pyFormatFix4 (3 / 2))) ∧
    (format_float_list [PyElem.float (3 / 2), PyElem.intE 5])[1]? =
      some (.intE 5) ∧
    (∃ w f : String, pyFormatFix4 (3 / 2) = w ++ "." ++ f ∧
      f.length = 4 ∧ ∀ ch ∈ f.data, ch.isDigit = true) :=
  ⟨(format_float_list_spec [PyElem.float (3 / 2), PyElem.intE 5]).2.1 0
      (3 / 2) rfl,
   (format_float_list_spec [PyElem.float (3 / 2), PyElem.intE 5]).2.2.1 1
      (.intE 5) rfl (fun q h => by cases h),
   (format_float_list_spec [PyElem.float (3 / 2), PyElem.intE 5]).2.2.2
      (3 / 2)⟩

/-- Witness for C8 on a concrete string with digits. -/
theorem string_to_int_spec_witness :
    (∃ c ∈ ("a1b02".data), c.isDigit = true) ∧
    ∃ n : ℕ, string_to_int ("a1b02".data) = .ok n ∧
      (String.mk (("a1b02".data).filter (fun c => c.isDigit))).toNat? =
        some n ∧
      n = Nat.ofDigits 10
        (((("a1b02".data).filter (fun c => c.isDigit)).map
          (fun c => c.toNat - Char.toNat '0')).reverse) :=
  ⟨by decide, (string_to_int_spec ("a1b02".data)).2 (by decide)⟩

end ACS


namespace ACS

/-! # Lemmas about sensor initialization -/

lemma except_pure {ε α : Type} (a : α) : (pure a : Except ε α) = .ok a := rfl

lemma any_name_eq_false {m : Data_Manager} {nm : String}
    (h : nm ∉ m.channelNames) :
    (m.channels.any (fun c0 => c0.name = nm)) = false := by
  rw [List.any_eq_false]
  intro c hc
  simp only [decide_eq_true_eq]
  intro hname
  refine h ?_
  simp only [Data_Manager.channelNames, List.mem_map]
  exact ⟨c, hc, hname⟩

lemma add_data_ok {m : Data_Manager} {c : Chan} (h : c.name ∉ m.channelNames) :
    m.add_data c = .ok { m with channels := m.channels ++ [c] } := by
  have ha := any_name_eq_false h
  simp [Data_Manager.add_data, ha]

lemma channelNames_concat {m : Data_Manager} {c : Chan} :
    Data_Manager.channelNames { m with channels := m.channels ++ [c] } =
      m.channelNames ++ [c.name] := by
  simp [Data_Manager.channelNames]

lemma initialize_imu_ok (m : Data_Manager)
    (Hf : ∀ n ∈ sensorChannelNames "IMU", n ∉ m.channelNames) :
    initialize_imu m =
      .ok ({ m with channels := m.channels ++ sensorChans "IMU" }, true) := by
  have h1 : ("mpu_acceleration" : String) ∉ m.channelNames := Hf _ (by decide)
  have h2 : ("mpu_gyroscope" : String) ∉ Data_Manager.channelNames
      { m with channels := m.channels ++ [Tuple_Data "mpu_acceleration"] } := by
    rw [channelNames_concat]
    intro hmem
    rcases List.mem_append.mp hmem with hh | hh
    · exact Hf _ (by decide) hh
    · simp [Tuple_Data] at hh
  have h3 : ("mpu_magnetometer" : String) ∉ Data_Manager.channelNames
      { m with channels := m.channels ++ [Tuple_Data "mpu_acceleration"] ++
          [Tuple_Data "mpu_gyroscope"] } := by
    intro hmem
    simp only [Data_Manager.channelNames, List.map_append, List.mem_append,
      List.map_cons, List.map_nil, List.mem_cons, List.not_mem_nil,
      or_false, Tuple_Data] at hmem
    rcases hmem with (hh | hh) | hh
    · exact Hf "mpu_magnetometer" (by decide)
        (by simpa [Data_Manager.channelNames] using hh)
    · exact absurd hh (by decide)
    · exact absurd hh (by decide)
  unfold initialize_imu
  rw [add_data_ok (c := Tuple_Data "mpu_acceleration") (m := m) h1]
  simp only [ok_bind]
  rw [add_data_ok (c := Tuple_Data "mpu_gyroscope") h2]
  simp only [ok_bind]
  rw [add_data_ok (c := Tuple_Data "mpu_magnetometer") h3]
  simp only [ok_bind, except_pure]
  simp [sensorChans, List.append_assoc]

lemma initialize_accelerometer_ok (m : Data_Manager)
    (Hf : ∀ n ∈ sensorChannelNames "Accelerometer", n ∉ m.channelNames) :
    initialize_accelerometer m =
      .ok ({ m with channels := m.channels ++ sensorChans "Accelerometer" },
        true) := by
  have h1 : ("adxl_acceleration" : String) ∉ m.channelNames := Hf _ (by decide)
  unfold initialize_accelerometer
  rw [add_data_ok (c := Tuple_Data "adxl_acceleration") (m := m) h1]
  simp only [ok_bind, except_pure]
  simp [sensorChans]

lemma initialize_altimeter_ok (m : Data_Manager)
    (Hf : ∀ n ∈ sensorChannelNames "Altimeter", n ∉ m.channelNames) :
    initialize_altimeter m =
      .ok ({ m with channels := m.channels ++ sensorChans "Altimeter" },
        true) := by
  have h1 : ("mpl_altitude" : String) ∉ m.channelNames := Hf _ (by decide)
  unfold initialize_altimeter
  rw [add_data_ok (c := Scalar_Data "mpl_altitude") (m := m) h1]
  simp only [ok_bind, except_pure]
  simp [sensorChans]

lemma init_step_ok (s : String) (m : Data_Manager)
    (Hf : ∀ n ∈ sensorChannelNames s, n ∉ m.channelNames) :
    init_step s (m, true) =
      .ok ({ m with channels := m.channels ++ sensorChans s }, true) := by
  by_cases h1 : s = "IMU"
  · subst h1
    have hi := initialize_imu_ok m Hf
    simp [init_step, pyAndInit, hi, ok_bind, except_pure]
  · by_cases h2 : s = "Accelerometer"
    · subst h2
      have hi := initialize_accelerometer_ok m Hf
      simp [init_step, pyAndInit, h1, hi, ok_bind, except_pure]
    · by_cases h3 : s = "Altimeter"
      · subst h3
        have hi := initialize_altimeter_ok m Hf
        simp [init_step, pyAndInit, h1, h2, hi, ok_bind, except_pure]
      · have hc : sensorChans s = [] := by
          simp [sensorChans, h1, h2, h3]
        simp [init_step, h1, h2, h3, hc]

end ACS

namespace ACS

lemma mem_sensorChannelNames_inj {n s t : String}
    (hs : n ∈ sensorChannelNames s) (ht : n ∈ sensorChannelNames t) :
    s = t := by
  unfold sensorChannelNames sensorChans at hs ht
  split_ifs at hs ht with h1 h2 h3 h4 h5 h6 <;> simp_all [Tuple_Data, Scalar_Data]

lemma sensorChannelNames_nodup (s : String) :
    (sensorChannelNames s).Nodup := by
  unfold sensorChannelNames sensorChans
  split_ifs <;> decide

lemma time_notin_sensorChannelNames (s : String) :
    "time" ∉ sensorChannelNames s := by
  unfold sensorChannelNames sensorChans
  split_ifs <;> decide

lemma flatMap_names_nodup {active : List String} (h : active.Nodup) :
    (active.flatMap sensorChannelNames).Nodup := by
  induction active with
  | nil => simp
  | cons s rest ih =>
      rw [List.flatMap_cons, List.nodup_append]
      obtain ⟨hs, hrest⟩ := List.nodup_cons.mp h
      refine ⟨sensorChannelNames_nodup s, ih hrest, ?_⟩
      intro n hn hn'
      obtain ⟨t, ht, hnt⟩ := List.mem_flatMap.mp hn'
      exact hs (by rw [mem_sensorChannelNames_inj hn hnt]; exact ht)

lemma time_notin_flatMap {active : List String} :
    "time" ∉ active.flatMap sensorChannelNames := by
  intro h
  obtain ⟨t, _, hnt⟩ := List.mem_flatMap.mp h
  exact time_notin_sensorChannelNames t hnt

lemma init_go_ok (sensors : List String) (m : Data_Manager)
    (Hn : (sensors.flatMap sensorChannelNames).Nodup)
    (Hd : ∀ n ∈ sensors.flatMap sensorChannelNames, n ∉ m.channelNames) :
    init_go sensors (m, true) =
      .ok ({ m with channels := m.channels ++ sensors.flatMap sensorChans },
        true) := by
  induction sensors generalizing m with
  | nil =>
      rw [List.flatMap_nil, List.append_nil]
      rfl
  | cons s rest ih =>
      rw [List.flatMap_cons] at Hn Hd ⊢
      have Hns : ∀ n ∈ sensorChannelNames s, n ∉ m.channelNames :=
        fun n hn => Hd n (List.mem_append_left _ hn)
      have Hnrest := (List.nodup_append.mp Hn).2.1
      have hdisj := (List.nodup_append.mp Hn).2.2
      have frest : ∀ n ∈ rest.flatMap sensorChannelNames,
          n ∉ Data_Manager.channelNames
            { m with channels := m.channels ++ sensorChans s } := by
        intro n hn hmem
        have hcn : Data_Manager.channelNames
            { m with channels := m.channels ++ sensorChans s } =
            m.channelNames ++ sensorChannelNames s := by
          simp [Data_Manager.channelNames, sensorChannelNames]
        rw [hcn] at hmem
        rcases List.mem_append.mp hmem with hh | hh
        · exact Hd n (List.mem_append_right _ hn) hh
        · exact hdisj hh hn
      unfold init_go
      rw [init_step_ok s m Hns]
      simp only [ok_bind]
      rw [ih _ Hnrest frest]
      simp [List.append_assoc]

end ACS

namespace ACS

lemma initialize_sensors_ok (active : List String) (hnd : active.Nodup) :
    initialize_sensors { active_sensors := active, channels := [] } =
      .ok ({ active_sensors := active,
             channels := Scalar_Data "time" :: active.flatMap sensorChans },
        true) := by
  have Hn := flatMap_names_nodup hnd
  have Hd : ∀ n ∈ active.flatMap sensorChannelNames,
      n ∉ Data_Manager.channelNames
        { active_sensors := active, channels := [Scalar_Data "time"] } := by
    intro n hn hmem
    simp [Data_Manager.channelNames, Scalar_Data] at hmem
    subst hmem
    exact time_notin_flatMap hn
  unfold initialize_sensors initialize_timer
  rw [add_data_ok (c := Scalar_Data "time") (by simp [Data_Manager.channelNames])]
  simp only [ok_bind]
  show init_go active
      ({ active_sensors := active, channels := [Scalar_Data "time"] },
        true) = _
  rw [init_go_ok active
    { active_sensors := active, channels := [Scalar_Data "time"] } Hn Hd]
  rfl

lemma initialized_channelNames_nodup (active : List String)
    (hnd : active.Nodup) :
    (Data_Manager.channelNames
      { active_sensors := active,
        channels := Scalar_Data "time" :: active.flatMap sensorChans }).Nodup := by
  have Hn := flatMap_names_nodup hnd
  have hcn : Data_Manager.channelNames
      { active_sensors := active,
        channels := Scalar_Data "time" :: active.flatMap sensorChans } =
      "time" :: active.flatMap sensorChannelNames := by
    simp only [Data_Manager.channelNames, List.map_cons, Scalar_Data,
      List.map_flatMap]
    exact congrArg _ (List.flatMap_congr (fun x _ => rfl))
  rw [hcn]
  exact List.nodup_cons.mpr ⟨time_notin_flatMap, Hn⟩

/-- C6: on a duplicate-free active-sensor list, initialize_sensors succeeds
with True and registers exactly the mandatory time scalar channel followed
by each active sensor's channels, each exactly once (the resulting channel
names are duplicate-free); and the acquisition step never registers a
channel afterwards: read_sensors leaves the set, order, names and kinds of
the registered channels unchanged. -/
theorem initialize_sensors_registers_once (active : List String)
    (hnd : active.Nodup) :
    (∃ m', initialize_sensors { active_sensors := active, channels := [] } =
        .ok (m', true) ∧
      m'.channels = Scalar_Data "time" :: active.flatMap sensorChans ∧
      m'.channelNames.Nodup) ∧
    (∀ (env : SensorEnv) (mm mm' : Data_Manager),
      read_sensors env mm = .ok mm' →
      mm'.channels.map nameKind = mm.channels.map nameKind) := by
  constructor
  · exact ⟨{ active_sensors := active,
             channels := Scalar_Data "time" :: active.flatMap sensorChans },
      initialize_sensors_ok active hnd, rfl,
      initialized_channelNames_nodup active hnd⟩
  · intro env mm mm' h
    exact (read_sensors_touches h).2.1

/-- Witness for C6 at the repository's configured active-sensor list. -/
theorem initialize_sensors_registers_once_witness :
    (["Accelerometer", "Altimeter"] : List String).Nodup ∧
    ((∃ m', initialize_sensors
        { active_sensors := ["Accelerometer", "Altimeter"], channels := [] } =
          .ok (m', true) ∧
      m'.channels = Scalar_Data "time" ::
        (["Accelerometer", "Altimeter"] : List String).flatMap sensorChans ∧
      m'.channelNames.Nodup) ∧
    (∀ (env : SensorEnv) (mm mm' : Data_Manager),
      read_sensors env mm = .ok mm' →
      mm'.channels.map nameKind = mm.channels.map nameKind)) :=
  ⟨by decide, initialize_sensors_registers_once _ (by decide)⟩

end ACS

namespace ACS

/-! # Lemmas for ignoring unknown sensor names

The dispatch loops consult only the iteration list; the manager's
active-sensor field is otherwise inert.  These lemmas commute every store
operation with replacing that field, and show the loops skip names outside
the dispatch chains. -/

lemma add_data_setActive (a : List String) (c : Chan) (m : Data_Manager) :
    (setActive a m).add_data c =
      (m.add_data c).map (fun m1 => setActive a m1) := by
  by_cases h : (m.channels.any (fun c0 => c0.name = c.name)) = true <;>
    simp [Data_Manager.add_data, setActive, h, Except.map]

lemma update_field_setActive (a : List String) (nm : String) (v : PVal)
    (m : Data_Manager) :
    (setActive a m).update_field nm v =
      (m.update_field nm v).map (fun m1 => setActive a m1) := by
  by_cases h : (m.channels.any (fun c0 => c0.name = nm)) = true <;>
    simp [Data_Manager.update_field, setActive, h, Except.map]

lemma initialize_timer_setActive (a : List String) (m : Data_Manager) :
    initialize_timer (setActive a m) =
      (initialize_timer m).map (fun p => (setActive a p.1, p.2)) := by
  unfold initialize_timer
  rw [add_data_setActive]
  cases h : m.add_data (Scalar_Data "time") with
  | error e => rfl
  | ok m1 => rfl

lemma initialize_imu_setActive (a : List String) (m : Data_Manager) :
    initialize_imu (setActive a m) =
      (initialize_imu m).map (fun p => (setActive a p.1, p.2)) := by
  unfold initialize_imu
  rw [add_data_setActive]
  cases h1 : m.add_data (Tuple_Data "mpu_acceleration") with
  | error e => rfl
  | ok m1 =>
      simp only [Except.map, ok_bind]
      rw [add_data_setActive]
      cases h2 : m1.add_data (Tuple_Data "mpu_gyroscope") with
      | error e => rfl
      | ok m2 =>
          simp only [Except.map, ok_bind]
          rw [add_data_setActive]
          cases h3 : m2.add_data (Tuple_Data "mpu_magnetometer") with
          | error e => rfl
          | ok m3 => rfl

lemma initialize_accelerometer_setActive (a : List String) (m : Data_Manager) :
    initialize_accelerometer (setActive a m) =
      (initialize_accelerometer m).map (fun p => (setActive a p.1, p.2)) := by
  unfold initialize_accelerometer
  rw [add_data_setActive]
  cases h : m.add_data (Tuple_Data "adxl_acceleration") with
  | error e => rfl
  | ok m1 => rfl

lemma initialize_altimeter_setActive (a : List String) (m : Data_Manager) :
    initialize_altimeter (setActive a m) =
      (initialize_altimeter m).map (fun p => (setActive a p.1, p.2)) := by
  unfold initialize_altimeter
  rw [add_data_setActive]
  cases h : m.add_data (Scalar_Data "mpl_altitude") with
  | error e => rfl
  | ok m1 => rfl

lemma init_step_setActive (s : String) (a : List String) (r : Bool)
    (m : Data_Manager) :
    init_step s (setActive a m, r) =
      (init_step s (m, r)).map (fun p => (setActive a p.1, p.2)) := by
  cases r with
  | false =>
      unfold init_step
      split_ifs <;> rfl
  | true =>
      unfold init_step
      split_ifs with h1 h2 h3
      · unfold pyAndInit
        rw [initialize_imu_setActive]
        cases hi : initialize_imu m with
        | error e => rfl
        | ok p => cases p with | mk p1 p2 => rfl
      · unfold pyAndInit
        rw [initialize_accelerometer_setActive]
        cases hi : initialize_accelerometer m with
        | error e => rfl
        | ok p => cases p with | mk p1 p2 => rfl
      · unfold pyAndInit
        rw [initialize_altimeter_setActive]
        cases hi : initialize_altimeter m with
        | error e => rfl
        | ok p => cases p with | mk p1 p2 => rfl
      · rfl

lemma init_go_setActive (sensors : List String) (a : List String)
    (m : Data_Manager) (r : Bool) :
    init_go sensors (setActive a m, r) =
      (init_go sensors (m, r)).map (fun p => (setActive a p.1, p.2)) := by
  induction sensors generalizing m r with
  | nil => rfl
  | cons s rest ih =>
      unfold init_go
      rw [init_step_setActive]
      cases hs : init_step s (m, r) with
      | error e => rfl
      | ok p =>
          cases p with
          | mk p1 p2 =>
              show init_go rest (setActive a p1, p2) = _
              exact ih p1 p2

lemma init_go_filter (sensors : List String) (acc : Data_Manager × Bool) :
    init_go sensors acc =
      init_go (sensors.filter (fun s => isKnownSensor s)) acc := by
  induction sensors generalizing acc with
  | nil => rfl
  | cons s rest ih =>
      by_cases hk : isKnownSensor s = true
      · rw [List.filter_cons_of_pos hk]
        unfold init_go
        cases hs : init_step s acc with
        | error e => rfl
        | ok acc1 =>
            simp only [ok_bind]
            exact ih acc1
      · have h1 : ¬ s = "IMU" := by
          intro h
          exact hk (by simp [isKnownSensor, h])
        have h2 : ¬ s = "Accelerometer" := by
          intro h
          exact hk (by simp [isKnownSensor, h])
        have h3 : ¬ s = "Altimeter" := by
          intro h
          exact hk (by simp [isKnownSensor, h])
        have hstep : init_step s acc = .ok acc := by
          simp [init_step, h1, h2, h3]
        rw [List.filter_cons_of_neg (by simpa using hk)]
        have hl : init_go (s :: rest) acc =
            init_step s acc >>= fun acc1 => init_go rest acc1 := rfl
        rw [hl, hstep]
        simp only [ok_bind]
        exact ih acc

end ACS

namespace ACS

lemma read_accelerometer_setActive (env : SensorEnv) (a : List String)
    (m : Data_Manager) :
    read_accelerometer env (setActive a m) =
      (read_accelerometer env m).map (fun m1 => setActive a m1) := by
  unfold read_accelerometer
  rw [update_field_setActive]

lemma read_altimeter_setActive (env : SensorEnv) (a : List String)
    (m : Data_Manager) :
    read_altimeter env (setActive a m) =
      (read_altimeter env m).map (fun m1 => setActive a m1) := by
  unfold read_altimeter
  rw [update_field_setActive]

lemma read_time_setActive (env : SensorEnv) (a : List String)
    (m : Data_Manager) :
    read_time env (setActive a m) =
      (read_time env m).map (fun m1 => setActive a m1) := by
  unfold read_time
  rw [update_field_setActive]

lemma read_imu_setActive (env : SensorEnv) (a : List String)
    (m : Data_Manager) :
    read_imu env (setActive a m) =
      (read_imu env m).map (fun m1 => setActive a m1) := by
  simp only [read_imu, Data_Manager.update_dict_field]
  rw [update_field_setActive]
  cases h1 : m.update_field "mpu_acceleration" (.vec (orZero3 env.imuAccelRead)) with
  | error e => rfl
  | ok m1 =>
      simp only [Except.map, ok_bind]
      rw [update_field_setActive]
      cases h2 : m1.update_field "mpu_magnetometer" (.vec (orZero3 env.imuGyroRead)) with
      | error e => rfl
      | ok m2 =>
          simp only [Except.map, ok_bind]
          rw [update_field_setActive]
          cases h3 : m2.update_field "mpu_gyroscope" (.vec (orZero3 env.imuMagnetRead)) with
          | error e => rfl
          | ok m3 => rfl

lemma read_step_setActive (env : SensorEnv) (s : String) (a : List String)
    (m : Data_Manager) :
    read_step env s (setActive a m) =
      (read_step env s m).map (fun m1 => setActive a m1) := by
  unfold read_step
  split_ifs with h1 h2 h3
  · exact read_imu_setActive env a m
  · exact read_accelerometer_setActive env a m
  · exact read_altimeter_setActive env a m
  · rfl

lemma read_go_setActive (env : SensorEnv) (sensors : List String)
    (a : List String) (m : Data_Manager) :
    read_go env sensors (setActive a m) =
      (read_go env sensors m).map (fun m1 => setActive a m1) := by
  induction sensors generalizing m with
  | nil => rfl
  | cons s rest ih =>
      unfold read_go
      rw [read_step_setActive]
      cases hs : read_step env s m with
      | error e => rfl
      | ok m1 =>
          show read_go env rest (setActive a m1) = _
          exact ih m1

lemma read_go_filter (env : SensorEnv) (sensors : List String)
    (m : Data_Manager) :
    read_go env sensors m =
      read_go env (sensors.filter (fun s => isKnownSensor s)) m := by
  induction sensors generalizing m with
  | nil => rfl
  | cons s rest ih =>
      by_cases hk : isKnownSensor s = true
      · rw [List.filter_cons_of_pos hk]
        unfold read_go
        cases hs : read_step env s m with
        | error e => rfl
        | ok m1 =>
            simp only [ok_bind]
            exact ih m1
      · have h1 : ¬ s = "IMU" := by
          intro h
          exact hk (by simp [isKnownSensor, h])
        have h2 : ¬ s = "Accelerometer" := by
          intro h
          exact hk (by simp [isKnownSensor, h])
        have h3 : ¬ s = "Altimeter" := by
          intro h
          exact hk (by simp [isKnownSensor, h])
        have hstep : read_step env s m = .ok m := by
          simp [read_step, h1, h2, h3]
        rw [List.filter_cons_of_neg (by simpa using hk)]
        have hl : read_go env (s :: rest) m =
            read_step env s m >>= fun m1 => read_go env rest m1 := rfl
        rw [hl, hstep]
        simp only [ok_bind]
        exact ih m

lemma stripInit_map (a : List String)
    (x : Except DMError (Data_Manager × Bool)) :
    stripInit (x.map (fun p => (setActive a p.1, p.2))) = stripInit x := by
  cases x with
  | error e => rfl
  | ok p => rfl

lemma stripRead_map (a : List String) (x : Except DMError Data_Manager) :
    stripRead (x.map (fun m1 => setActive a m1)) = stripRead x := by
  cases x with
  | error e => rfl
  | ok m1 => rfl

lemma initialize_timer_elim {m m1 : Data_Manager} {r : Bool}
    (h : initialize_timer m = .ok (m1, r)) :
    m1.active_sensors = m.active_sensors := by
  unfold initialize_timer at h
  by_cases ha : (m.channels.any (fun c0 => c0.name = "time")) = true
  · rw [show m.add_data (Scalar_Data "time") = .error .DuplicateChannel from
      by simp [Data_Manager.add_data, Scalar_Data, ha]] at h
    exact absurd h (by simp [error_bind])
  · rw [show m.add_data (Scalar_Data "time") =
        .ok { m with channels := m.channels ++ [Scalar_Data "time"] } from
      by simp [Data_Manager.add_data, Scalar_Data, ha]] at h
    rw [ok_bind] at h
    cases h
    rfl

end ACS

namespace ACS

lemma initialize_sensors_filter (l : List String) (ch : List Chan) :
    stripInit (initialize_sensors { active_sensors := l, channels := ch }) =
      stripInit (initialize_sensors
        { active_sensors := l.filter (fun s => isKnownSensor s),
          channels := ch }) := by
  have hM : ({ active_sensors := l.filter (fun s => isKnownSensor s),
               channels := ch } : Data_Manager) =
      setActive (l.filter (fun s => isKnownSensor s))
        { active_sensors := l, channels := ch } := rfl
  rw [hM]
  unfold initialize_sensors
  rw [initialize_timer_setActive]
  cases ht : initialize_timer { active_sensors := l, channels := ch } with
  | error e => rfl
  | ok p =>
      cases p with
      | mk m1 r1 =>
          have hact : m1.active_sensors = l := initialize_timer_elim ht
          show stripInit (init_go m1.active_sensors (m1, r1)) =
            stripInit (init_go (l.filter (fun s => isKnownSensor s))
              (setActive (l.filter (fun s => isKnownSensor s)) m1, r1))
          rw [hact, init_go_setActive, stripInit_map,
            init_go_filter l (m1, r1)]

lemma read_sensors_filter (env : SensorEnv) (l : List String)
    (ch : List Chan) :
    stripRead (read_sensors env { active_sensors := l, channels := ch }) =
      stripRead (read_sensors env
        { active_sensors := l.filter (fun s => isKnownSensor s),
          channels := ch }) := by
  have hM : ({ active_sensors := l.filter (fun s => isKnownSensor s),
               channels := ch } : Data_Manager) =
      setActive (l.filter (fun s => isKnownSensor s))
        { active_sensors := l, channels := ch } := rfl
  rw [hM]
  unfold read_sensors
  rw [read_time_setActive]
  cases ht : read_time env { active_sensors := l, channels := ch } with
  | error e => rfl
  | ok m1 =>
      have hact : m1.active_sensors = l := (read_time_touches ht).1
      show stripRead (read_go env m1.active_sensors m1) =
        stripRead (read_go env (l.filter (fun s => isKnownSensor s))
          (setActive (l.filter (fun s => isKnownSensor s)) m1))
      rw [hact, read_go_setActive, stripRead_map,
        read_go_filter env l m1]

/-- C9: a sensor name outside IMU, Accelerometer, Altimeter is silently
ignored: initialization and acquisition behave exactly as if the name were
absent from the active list (same channels, same returned boolean, same
error, so the unknown name registers no channel, writes no channel and
raises nothing), and initialize_sensors still returns True whenever the
known part of the list is duplicate-free. -/
theorem unknown_sensor_names_ignored (l : List String) (ch : List Chan)
    (env : SensorEnv) :
    (stripInit (initialize_sensors { active_sensors := l, channels := ch }) =
      stripInit (initialize_sensors
        { active_sensors := l.filter (fun s => isKnownSensor s),
          channels := ch })) ∧
    (stripRead (read_sensors env { active_sensors := l, channels := ch }) =
      stripRead (read_sensors env
        { active_sensors := l.filter (fun s => isKnownSensor s),
          channels := ch })) ∧
    ((l.filter (fun s => isKnownSensor s)).Nodup →
      ∃ m', initialize_sensors { active_sensors := l, channels := [] } =
        .ok (m', true)) := by
  refine ⟨initialize_sensors_filter l ch, read_sensors_filter env l ch, ?_⟩
  intro hnd
  have hfil := initialize_sensors_ok (l.filter (fun s => isKnownSensor s)) hnd
  have heq := initialize_sensors_filter l []
  rw [hfil] at heq
  cases hinit : initialize_sensors { active_sensors := l, channels := [] } with
  | error e =>
      rw [hinit] at heq
      exact absurd heq (by simp [stripInit, Except.map])
  | ok p =>
      cases p with
      | mk m' b =>
          rw [hinit] at heq
          simp [stripInit, Except.map] at heq
          exact ⟨m', by rw [heq.2]⟩

/-- Witness for C9 with the unknown sensor name Foo in the active list. -/
theorem unknown_sensor_names_ignored_witness :
    (stripInit (initialize_sensors
        { active_sensors := ["Foo", "Accelerometer"], channels := [] }) =
      stripInit (initialize_sensors
        { active_sensors := (["Foo", "Accelerometer"] : List String).filter
            (fun s => isKnownSensor s),
          channels := [] })) ∧
    ((["Foo", "Accelerometer"] : List String).filter
      (fun s => isKnownSensor s)).Nodup ∧
    (∃ m', initialize_sensors
        { active_sensors := ["Foo", "Accelerometer"], channels := [] } =
        .ok (m', true)) :=
  ⟨(unknown_sensor_names_ignored ["Foo", "Accelerometer"] [] envNone).1,
   by decide,
   (unknown_sensor_names_ignored ["Foo", "Accelerometer"] [] envNone).2.2
     (by decide)⟩

end ACS
